import Mathlib

/-!
Verification of the training-orchestration logic of thai-deepvecfont-v2.

The embedded code is `src/train.py` (the training driver `train_main_model`)
and `src/data_utils/convert_ttf_to_sfd.py` (the font converter `process`).
Machine floats are modelled as exact rationals; Python's partial operations
(`%` and `/` raising `ZeroDivisionError`) are modelled with `Option`/`Except`.
-/

namespace ThaiDVF

/-! ## Loss aggregation (train.py lines 66-67) -/

/-- The externally configured loss weights (`opts.loss_w_l1`, `opts.loss_w_pt_c`,
`opts.kl_beta`, and the report-only sub-term weights `opts.loss_w_cmd`,
`opts.loss_w_args`, `opts.loss_w_smt`, `opts.loss_w_aux`). -/
structure LossWeights where
  loss_w_l1 : ℚ
  loss_w_pt_c : ℚ
  kl_beta : ℚ
  loss_w_cmd : ℚ
  loss_w_args : ℚ
  loss_w_smt : ℚ
  loss_w_aux : ℚ

/-- The structured loss breakdown `loss_dict` returned by one model invocation:
categories `img` (terms `l1`, `vggpt`), `kl`, `svg` and `svg_para`
(terms `total`, `cmd`, `args`, `smt`, `aux`). -/
structure LossBreakdown where
  img_l1 : ℚ
  img_vggpt : ℚ
  kl : ℚ
  svg_total : ℚ
  svg_cmd : ℚ
  svg_args : ℚ
  svg_smt : ℚ
  svg_aux : ℚ
  svg_para_total : ℚ
  svg_para_cmd : ℚ
  svg_para_args : ℚ
  svg_para_smt : ℚ
  svg_para_aux : ℚ

/-- train.py lines 66-67:
`loss = opts.loss_w_l1 * loss_dict['img']['l1'] + opts.loss_w_pt_c * loss_dict['img']['vggpt']
 + opts.kl_beta * loss_dict['kl'] + loss_dict['svg']['total'] + loss_dict['svg_para']['total']`. -/
def aggregateLoss (w : LossWeights) (d : LossBreakdown) : ℚ :=
  w.loss_w_l1 * d.img_l1 + w.loss_w_pt_c * d.img_vggpt + w.kl_beta * d.kl
    + d.svg_total + d.svg_para_total

/-! ## Cadence decisions (train.py lines 88, 115, 121) -/

/-- Python's `%` on machine integers: raises `ZeroDivisionError` when the
modulus is zero, hence `none` there. -/
def pyMod (a b : ℕ) : Option ℕ :=
  if b = 0 then none else some (a % b)

/-- train.py line 88: `batches_done % opts.freq_log == 0`.
There is no positivity guard on `opts.freq_log`, so `freq = 0` raises
`ZeroDivisionError` (modelled as `none`). -/
def logDue (step freq : ℕ) : Option Bool :=
  (pyMod step freq).map (fun r => r == 0)

/-- train.py line 115: `opts.freq_sample > 0 and batches_done % opts.freq_sample == 0`.
Python's `and` short-circuits, so the modulo is never evaluated when the
frequency is not positive. -/
def sampleDue (step freq : ℕ) : Option Bool :=
  if 0 < freq then (pyMod step freq).map (fun r => r == 0) else some false

/-- train.py line 121: `opts.freq_val > 0 and batches_done % opts.freq_val == 0`. -/
def valDue (step freq : ℕ) : Option Bool :=
  if 0 < freq then (pyMod step freq).map (fun r => r == 0) else some false

/-! ## Validation sub-loop (train.py lines 123-161) -/

/-- The per-batch validation losses read by the accumulation loop: exactly the
keys initialised in `loss_val` (line 125-126) for the categories `img`
(`l1`, `vggpt`) and `svg` (`total`, `cmd`, `args`, `aux`). -/
structure ValLoss where
  img_l1 : ℚ
  img_vggpt : ℚ
  svg_total : ℚ
  svg_cmd : ℚ
  svg_args : ℚ
  svg_aux : ℚ

/-- The accumulator `loss_val` (lines 125-126), including the `svg_para`
entries that are initialised but never touched by the loops at
lines 131-137 (those iterate over `['img', 'svg']` only). -/
structure ValAcc where
  img_l1 : ℚ
  img_vggpt : ℚ
  svg_total : ℚ
  svg_cmd : ℚ
  svg_args : ℚ
  svg_aux : ℚ
  svg_para_total : ℚ
  svg_para_cmd : ℚ
  svg_para_args : ℚ
  svg_para_aux : ℚ
deriving DecidableEq

/-- Initial `loss_val` (lines 125-126): every entry 0.0. -/
def valInit : ValAcc :=
  { img_l1 := 0, img_vggpt := 0, svg_total := 0, svg_cmd := 0, svg_args := 0,
    svg_aux := 0, svg_para_total := 0, svg_para_cmd := 0, svg_para_args := 0,
    svg_para_aux := 0 }

/-- One accumulation step (lines 131-133): `loss_val[cat][key] += loss_dict_val[cat][key]`
for `cat` in `['img', 'svg']` over the keys of `loss_val[cat]`. -/
def valAdd (a : ValAcc) (b : ValLoss) : ValAcc :=
  { a with
    img_l1 := a.img_l1 + b.img_l1
    img_vggpt := a.img_vggpt + b.img_vggpt
    svg_total := a.svg_total + b.svg_total
    svg_cmd := a.svg_cmd + b.svg_cmd
    svg_args := a.svg_args + b.svg_args
    svg_aux := a.svg_aux + b.svg_aux }

/-- The accumulated sums after the loop at lines 128-133 over `val_loader`. -/
def valSum (bs : List ValLoss) : ValAcc :=
  bs.foldl valAdd valInit

/-- The ways a validation run ends abnormally. `zeroDivision` is Python's
`ZeroDivisionError`; `configError` is the explicitly signaled configuration
failure the specification calls for (never produced by this code). -/
inductive ValErr where
  | zeroDivision
  | configError
deriving DecidableEq

/-- train.py lines 123-137: accumulate the per-batch losses over `val_loader`,
then `loss_val[cat][key] /= len(val_loader)` for `cat` in `['img', 'svg']`.
When `val_loader` is empty the first `/=` raises `ZeroDivisionError`. -/
def valRun (bs : List ValLoss) : Except ValErr ValAcc :=
  let s := valSum bs
  if bs.length = 0 then .error .zeroDivision
  else
    .ok { s with
      img_l1 := s.img_l1 / bs.length
      img_vggpt := s.img_vggpt / bs.length
      svg_total := s.svg_total / bs.length
      svg_cmd := s.svg_cmd / bs.length
      svg_args := s.svg_args / bs.length
      svg_aux := s.svg_aux / bs.length }

/-! ## Model train/eval mode around validation (train.py lines 121-161) -/

/-- PyTorch module mode. -/
inductive NNMode where
  | train
  | eval
deriving DecidableEq

/-- The model's mode after one batch's cadence actions: when validation is due
(line 121) the block calls `model_main.eval()` (line 124) and the block ends at
line 161 with no `model_main.train()` call, so the mode is left at `eval`;
otherwise the mode is unchanged. -/
def modeAfterCadence (m : NNMode) (step freqVal : ℕ) : NNMode :=
  if valDue step freqVal = some true then NNMode.eval else m

/-! ## Resume from checkpoint (train.py lines 52-60, 166-176) -/

/-- A saved checkpoint (lines 169/172):
`{'model': ..., 'opt': ..., 'n_epoch': epoch, 'n_iter': batches_done}`. -/
structure Checkpoint (M O : Type) where
  model : M
  opt : O
  n_epoch : ℕ
  n_iter : ℕ

/-- What the run resumes with. -/
structure ResumeState (M O : Type) where
  model : M
  opt : O
  startEpoch : ℕ

/-- train.py lines 52-60: `model_main.load_state_dict(checkpoint['model'])`,
`optimizer.load_state_dict(checkpoint['opt'])`, then the epoch loop starts at
`opts.init_epoch` (line 60). The checkpoint's `n_epoch` and `n_iter` are never
read. -/
def resumeRun {M O : Type} (init_epoch : ℕ) (ck : Checkpoint M O) : ResumeState M O :=
  { model := ck.model, opt := ck.opt, startEpoch := init_epoch }

/-! ## Global step counter (train.py lines 60-73) -/

/-- train.py line 73: `batches_done = epoch * len(train_loader) + idx + 1`. -/
def batchesDone (epoch numBatches idx : ℕ) : ℕ :=
  epoch * numBatches + idx + 1

/-- The successive `batches_done` values produced over a run (lines 60-73):
`epoch` ranges over `range(init_epoch, n_epochs)` and `idx` over the batches of
`train_loader` (length `numBatches`). -/
def runSteps (init_epoch n_epochs numBatches : ℕ) : List ℕ :=
  (List.range' init_epoch (n_epochs - init_epoch)).flatMap
    (fun ep => (List.range numBatches).map (fun idx => batchesDone ep numBatches idx))

/-- The `batches_done` values at which a log record is written (line 88). -/
def logRecords (init_epoch n_epochs numBatches freq : ℕ) : List ℕ :=
  (runSteps init_epoch n_epochs numBatches).filter
    (fun s => logDue s freq == some true)

/-! ## Checkpoint save and artifact publication (train.py lines 166-176) -/

/-- Durable write of one checkpoint keyed `(epoch, batches_done)`
(`torch.save` at line 169/172): the store gains the new file; nothing already
written is altered. -/
def saveCheckpoint (store : List (ℕ × ℕ)) (epoch step : ℕ) : List (ℕ × ℕ) :=
  store ++ [(epoch, step)]

/-- train.py lines 166-176: `torch.save` writes the checkpoint; then, when
`opts.wandb` is set, `run.log_artifact(artifact)` publishes it to the tracker.
The publication is not wrapped in any `try`/`except`, so when the tracker call
raises (outcome modelled by `publishOk`), the exception propagates out of
`train_main_model`. Returns the final durable store and the control outcome. -/
def ckptAndPublish (wandbOn publishOk : Bool) (store : List (ℕ × ℕ))
    (epoch step : ℕ) : List (ℕ × ℕ) × Except Unit Unit :=
  let store' := saveCheckpoint store epoch step
  if wandbOn && !publishOk then (store', .error ()) else (store', .ok ())

/-! ## Log-file lifecycle (train.py lines 31-32, 60-179) -/

/-- Observable end state of one run: how many batches were processed and
whether each log file handle was closed. -/
structure RunTrace where
  processed : ℕ
  trainLogClosed : Bool
  valLogClosed : Bool
deriving DecidableEq

/-- The epoch/batch loop body, where `batchOk` lists whether each successive
batch's processing completes or raises: processing stops at the first raise. -/
def runLoop : List Bool → ℕ → ℕ × Except Unit Unit
  | [], n => (n, .ok ())
  | ok :: rest, n => if ok then runLoop rest (n + 1) else (n, .error ())

/-- train.py: `logfile_train` and `logfile_val` are opened at lines 31-32 and
closed at lines 178-179, which run only after the loop completes; there is no
`try`/`finally` or context manager, so an exception raised inside the loop
propagates out of `train_main_model` without executing the close calls. -/
def trainMainRun (batchOk : List Bool) : RunTrace × Except Unit Unit :=
  match runLoop batchOk 0 with
  | (n, .ok ()) =>
    ({ processed := n, trainLogClosed := true, valLogClosed := true }, .ok ())
  | (n, .error ()) =>
    ({ processed := n, trainLogClosed := false, valLogClosed := false }, .error ())

/-! ## Font converter (convert_ttf_to_sfd.py lines 50-77) -/

/-- The five lines written to the per-character description file
(lines 71-75): `ord(char)`, the glyph's `width` and `vwidth`, the zero-padded
`char_id`, and the `font_id`. -/
structure SfdDescription where
  codepoint : ℕ
  width : ℤ
  vwidth : ℤ
  charId : ℕ
  fontId : String
deriving DecidableEq

/-- The inner per-character body of `process` (lines 50-77). `char` starts as
the charset character `c`; when `c` is in the Thai charset it is replaced by
the `'uniXXXX'` slot name (line 54, used only to select the source glyph); at
line 63 `char` is unconditionally reassigned to `'A'` before any write, so
line 71 records `ord('A')`. `ok` is whether the fontforge select/copy/paste/
save calls complete (the `except` at line 78 swallows a failure, writing no
description). -/
def processChar (ok : Bool) (c : Char) (inThaiCharset : Bool) (charId : ℕ)
    (fontId : String) (width vwidth : ℤ) : Option SfdDescription :=
  if ok then
    let _sel : String := if inThaiCharset then "uni" ++ toString c.toNat else toString c
    let ch : Char := 'A'
    some { codepoint := ch.toNat, width := width, vwidth := vwidth,
           charId := charId, fontId := fontId }
  else none

/-! ## Theorems -/

/-- Claim C1: for every batch the scalar optimization target equals
`w_l1 * img.l1 + w_pt * img.vggpt + w_kl * kl + svg.total + svg_para.total`;
the svg and svg_para sub-terms (cmd, args, smt, aux) are not re-added into
the total; and on the breakdown img.l1 = 2, img.vggpt = 1, kl = 1/2,
svg.total = 3, svg_para.total = 3/2 with weights w_l1 = 1, w_pt = 1/2,
w_kl = 1/10 the total equals 7.05 = 141/20. -/
theorem c1_loss_aggregation :
    (∀ (w : LossWeights) (d : LossBreakdown),
      aggregateLoss w d =
        w.loss_w_l1 * d.img_l1 + w.loss_w_pt_c * d.img_vggpt + w.kl_beta * d.kl
          + d.svg_total + d.svg_para_total) ∧
    (∀ (w : LossWeights) (d : LossBreakdown) (c a s x c2 a2 s2 x2 : ℚ),
      aggregateLoss w
        { d with svg_cmd := c, svg_args := a, svg_smt := s, svg_aux := x,
                 svg_para_cmd := c2, svg_para_args := a2, svg_para_smt := s2,
                 svg_para_aux := x2 } = aggregateLoss w d) ∧
    aggregateLoss
      { loss_w_l1 := 1, loss_w_pt_c := 1/2, kl_beta := 1/10,
        loss_w_cmd := 0, loss_w_args := 0, loss_w_smt := 0, loss_w_aux := 0 }
      { img_l1 := 2, img_vggpt := 1, kl := 1/2, svg_total := 3,
        svg_cmd := 0, svg_args := 0, svg_smt := 0, svg_aux := 0,
        svg_para_total := 3/2, svg_para_cmd := 0, svg_para_args := 0,
        svg_para_smt := 0, svg_para_aux := 0 } = 141/20 :=
  ⟨fun _ _ => rfl, fun _ _ _ _ _ _ _ _ _ _ => rfl, by norm_num [aggregateLoss]⟩

/-- Claim C2 counterexample: with `freq_log = 0` the log cadence is not
"never due": at the very first batch the check `batches_done % freq_log == 0`
raises ZeroDivisionError (modelled as `none`) instead of coming out false. -/
theorem c2_log_zero_counterexample :
    logDue 1 0 = none ∧ logDue 1 0 ≠ some false := by
  constructor
  · rfl
  · intro h
    simp [logDue, pyMod] at h

/-- Claim C2 (amended): for the sample and validate cadences the action is due
iff the configured frequency is strictly positive and
`global_step mod frequency = 0`, and frequency 0 means never due for all
steps; the log cadence satisfies the same iff for positive frequencies, but
at frequency 0 it raises a modulo-by-zero error at every step rather than
never being due. -/
theorem c2_cadence_due (step freq : ℕ) :
    (0 < freq →
      ((logDue step freq = some true ↔ step % freq = 0) ∧
        (sampleDue step freq = some true ↔ step % freq = 0) ∧
        (valDue step freq = some true ↔ step % freq = 0))) ∧
    sampleDue step 0 = some false ∧
    valDue step 0 = some false ∧
    logDue step 0 = none := by
  refine ⟨fun h => ?_, ?_, ?_, ?_⟩
  · have hne : freq ≠ 0 := Nat.pos_iff_ne_zero.mp h
    refine ⟨?_, ?_, ?_⟩ <;> simp [logDue, sampleDue, valDue, pyMod, hne, h]
  · simp [sampleDue]
  · simp [valDue]
  · simp [logDue, pyMod]

/-- Claim C2 witness: at step 6 with frequency 3 the log action is due. -/
theorem c2_cadence_due_witness : logDue 6 3 = some true :=
  ((c2_cadence_due 6 3).1 (by decide)).1.mpr (by decide)

/-- Folding `valAdd` accumulates, in each of the six keys touched by the loop
at train.py lines 131-133, the sum of the corresponding per-batch values, and
leaves the four svg_para entries unchanged. -/
lemma valFold_eq (bs : List ValLoss) (a : ValAcc) :
    bs.foldl valAdd a =
      ⟨a.img_l1 + (bs.map (fun b => b.img_l1)).sum,
        a.img_vggpt + (bs.map (fun b => b.img_vggpt)).sum,
        a.svg_total + (bs.map (fun b => b.svg_total)).sum,
        a.svg_cmd + (bs.map (fun b => b.svg_cmd)).sum,
        a.svg_args + (bs.map (fun b => b.svg_args)).sum,
        a.svg_aux + (bs.map (fun b => b.svg_aux)).sum,
        a.svg_para_total, a.svg_para_cmd, a.svg_para_args, a.svg_para_aux⟩ := by
  induction bs generalizing a with
  | nil => simp
  | cons b t ih =>
    simp only [List.foldl_cons, List.map_cons, List.sum_cons, ih, valAdd]
    congr 1 <;> ring

/-- Claim C3: on a non-empty validation stream the run returns, in every
accumulated category and key (img.l1, img.vggpt, svg.total, svg.cmd,
svg.args, svg.aux), the sum over the batches divided by the batch count, and
it is a pure function, so a second run on the same stream returns the same
output. -/
theorem c3_validation_average (bs : List ValLoss) (h : bs ≠ []) :
    valRun bs =
      Except.ok
        { img_l1 := (bs.map (fun b => b.img_l1)).sum / bs.length,
          img_vggpt := (bs.map (fun b => b.img_vggpt)).sum / bs.length,
          svg_total := (bs.map (fun b => b.svg_total)).sum / bs.length,
          svg_cmd := (bs.map (fun b => b.svg_cmd)).sum / bs.length,
          svg_args := (bs.map (fun b => b.svg_args)).sum / bs.length,
          svg_aux := (bs.map (fun b => b.svg_aux)).sum / bs.length,
          svg_para_total := 0, svg_para_cmd := 0, svg_para_args := 0,
          svg_para_aux := 0 } ∧
    valRun bs = valRun bs := by
  refine ⟨?_, rfl⟩
  have hl : bs.length ≠ 0 := by
    simpa [List.length_eq_zero] using h
  simp only [valRun, valSum, valInit, valFold_eq, hl, if_false, zero_add]

/-- Claim C3 witness: three batches with img.l1 = 1, 2, 3 (all other keys 0)
average to img.l1 = 2. -/
theorem c3_validation_average_witness :
    valRun [⟨1, 0, 0, 0, 0, 0⟩, ⟨2, 0, 0, 0, 0, 0⟩, ⟨3, 0, 0, 0, 0, 0⟩] =
      Except.ok ⟨2, 0, 0, 0, 0, 0, 0, 0, 0, 0⟩ := by
  rw [(c3_validation_average
    [⟨1, 0, 0, 0, 0, 0⟩, ⟨2, 0, 0, 0, 0, 0⟩, ⟨3, 0, 0, 0, 0, 0⟩] (by simp)).1]
  norm_num

/-- Claim C4: the code contradicts the claim -- when validation is due at a
batch, the driver calls eval() on the model but never calls train() before
the batch loop continues, so a model that entered the batch in training mode
is left in eval mode. Shown at freq_val = 1, batches_done = 1. -/
theorem c4_mode_not_restored :
    modeAfterCadence NNMode.train 1 1 = NNMode.eval ∧
    modeAfterCadence NNMode.train 1 1 ≠ NNMode.train := by
  refine ⟨rfl, ?_⟩
  intro h
  exact absurd h (by decide)

/-- Claim C5 counterexample: on the empty validation stream the run fails
with the propagated ZeroDivisionError from the averaging step, not with an
explicitly signaled configuration error. -/
theorem c5_empty_counterexample :
    valRun [] = Except.error ValErr.zeroDivision ∧
    valRun [] ≠ Except.error ValErr.configError := by
  refine ⟨rfl, ?_⟩
  intro h
  rw [show valRun [] = Except.error ValErr.zeroDivision from rfl] at h
  simp at h

/-- Claim C5 (amended): the validation run fails only by propagating the
division-by-zero numeric error, and exactly on the empty stream; no explicit
configuration error is ever signaled. -/
theorem c5_empty_stream_error (bs : List ValLoss) (e : ValErr)
    (h : valRun bs = Except.error e) :
    e = ValErr.zeroDivision ∧ bs = [] := by
  by_cases hl : bs.length = 0
  · refine ⟨?_, List.length_eq_zero.mp hl⟩
    rw [show valRun bs = if bs.length = 0 then Except.error ValErr.zeroDivision
        else valRun bs from by rw [if_pos hl]; simp [valRun, hl],
      if_pos hl] at h
    exact (Except.error.inj h).symm
  · exfalso
    simp only [valRun, hl, if_false] at h
    exact Except.noConfusion h

/-- Claim C5 witness: the hypothesis of the amended theorem is satisfied at
the empty stream with the zero-division error. -/
theorem c5_empty_stream_error_witness :
    ValErr.zeroDivision = ValErr.zeroDivision ∧ ([] : List ValLoss) = [] :=
  c5_empty_stream_error [] ValErr.zeroDivision rfl

/-- Claim C6: resuming from a checkpoint restores exactly the model
parameters and the optimizer state recorded in it, the batch loop resumes at
the run configuration's starting epoch, and the result is independent of the
n_epoch and n_iter values recorded inside the checkpoint -- no consistency
check or auto-correction between the two is performed. -/
theorem c6_resume_policy (M O : Type) (e : ℕ) (ck : Checkpoint M O) (n i : ℕ) :
    (resumeRun e ck).model = ck.model ∧
    (resumeRun e ck).opt = ck.opt ∧
    (resumeRun e ck).startEpoch = e ∧
    resumeRun e { ck with n_epoch := n, n_iter := i } = resumeRun e ck :=
  ⟨rfl, rfl, rfl, rfl⟩

/-- One epoch's block of `batches_done` values is the contiguous range
starting at `epoch * numBatches + 1`. -/
lemma epoch_block_eq (a L : ℕ) :
    (List.range L).map (fun idx => batchesDone a L idx)
      = List.range' (a * L + 1) L := by
  have hf : (fun idx => batchesDone a L idx) = (fun idx => (a * L + 1) + idx) := by
    funext idx
    simp only [batchesDone]
    ring
  rw [hf, List.range'_eq_map_range]

/-- Concatenating the per-epoch blocks over a range of epochs gives one
contiguous range of `batches_done` values. -/
lemma runSteps_blocks (n : ℕ) : ∀ a L : ℕ,
    (List.range' a n).flatMap
        (fun ep => (List.range L).map (fun idx => batchesDone ep L idx))
      = List.range' (a * L + 1) (n * L) := by
  induction n with
  | zero =>
    intro a L
    simp
  | succ n ih =>
    intro a L
    rw [List.range'_succ, List.flatMap_cons, epoch_block_eq, ih (a + 1) L,
      show (a + 1) * L + 1 = (a * L + 1) + L by ring, List.range'_append_1]
    congr 1
    ring

/-- Claim C7: within a run the list of `batches_done` values is the
contiguous range starting at `init_epoch * numBatches + 1`, so the global
step increases by exactly 1 per processed batch and never resets across
epoch boundaries; and a fresh run from epoch 0 over one epoch of three
batches with log frequency 1 produces exactly the three log records with
global steps 1, 2, 3 in that order. -/
theorem c7_global_step :
    (∀ e0 nE L, runSteps e0 nE L = List.range' (e0 * L + 1) ((nE - e0) * L)) ∧
    (∀ e0 nE L i, i + 1 < (runSteps e0 nE L).length →
      (runSteps e0 nE L).getD (i + 1) 0 = (runSteps e0 nE L).getD i 0 + 1) ∧
    logRecords 0 1 3 1 = [1, 2, 3] := by
  have hsteps : ∀ e0 nE L, runSteps e0 nE L
      = List.range' (e0 * L + 1) ((nE - e0) * L) := by
    intro e0 nE L
    exact runSteps_blocks (nE - e0) e0 L
  refine ⟨hsteps, ?_, by decide⟩
  intro e0 nE L i hi
  rw [hsteps] at hi ⊢
  rw [List.length_range'] at hi
  have hi0 : i < (nE - e0) * L := Nat.lt_of_succ_lt hi
  rw [List.getD_eq_getElem _ _ (by rw [List.length_range']; exact hi),
    List.getD_eq_getElem _ _ (by rw [List.length_range']; exact hi0),
    List.getElem_range', List.getElem_range']
  omega

/-- Claim C7 witness: in a fresh one-epoch run over three batches, the second
step exceeds the first by exactly 1. -/
theorem c7_global_step_witness :
    (runSteps 0 1 3).getD 1 0 = (runSteps 0 1 3).getD 0 0 + 1 :=
  c7_global_step.2.1 0 1 3 0 (by decide)

/-- Claim C8 counterexample: with wandb enabled and the tracker publication
failing after the checkpoint keyed (5, 100) was saved, the durable checkpoint
is written intact, yet the uncaught publication exception aborts the run --
contradicting "does not abort the run". -/
theorem c8_publish_failure_counterexample :
    (ckptAndPublish true false [] 5 100).1 = [(5, 100)] ∧
    (ckptAndPublish true false [] 5 100).2 = Except.error () :=
  ⟨rfl, rfl⟩

/-- Claim C8 (amended): every checkpoint save writes the durable file
regardless of the publication outcome (the write precedes publication and is
never rolled back), but the publication call is unguarded, so the run aborts
exactly when wandb publication is attempted and fails -- it is not
best-effort. -/
theorem c8_ckpt_publish (w p : Bool) (store : List (ℕ × ℕ)) (e s : ℕ) :
    (ckptAndPublish w p store e s).1 = store ++ [(e, s)] ∧
    ((ckptAndPublish w p store e s).2 = Except.error () ↔
      w = true ∧ p = false) := by
  cases w <;> cases p <;> simp [ckptAndPublish, saveCheckpoint]

/-- Claim C9 counterexample: a run whose second batch raises ends on the
failure exit path with neither log file closed -- contradicting "on every
exit path both files are flushed and closed". -/
theorem c9_failure_exit_counterexample :
    (trainMainRun [true, false]).1.trainLogClosed = false ∧
    (trainMainRun [true, false]).1.valLogClosed = false ∧
    (trainMainRun [true, false]).2 = Except.error () :=
  ⟨rfl, rfl, rfl⟩

/-- Claim C9 (amended): the two log files are closed when and only when the
run completes naturally; on a failure exit the close calls (which only follow
the loop, with no try/finally) are skipped. -/
theorem c9_log_lifecycle (batchOk : List Bool) :
    ((trainMainRun batchOk).1.trainLogClosed = true ↔
      (trainMainRun batchOk).2 = Except.ok ()) ∧
    ((trainMainRun batchOk).1.valLogClosed = true ↔
      (trainMainRun batchOk).2 = Except.ok ()) := by
  unfold trainMainRun
  rcases hr : runLoop batchOk 0 with ⟨n, r⟩
  cases r with
  | ok u =>
    cases u
    simp
  | error u =>
    cases u
    simp

/-- Claim C10: whenever the per-character conversion succeeds, the written
description records codepoint 65 -- that of the letter A, to which the char
variable is reassigned before the codepoint is written -- as its first field,
for every font, source character and charset position. -/
theorem c10_description_codepoint (ok : Bool) (c : Char) (t : Bool)
    (charId : ℕ) (fontId : String) (width vwidth : ℤ) (d : SfdDescription)
    (h : processChar ok c t charId fontId width vwidth = some d) :
    d.codepoint = 65 := by
  cases ok with
  | false => exact absurd h (by simp [processChar])
  | true =>
    simp only [processChar, if_true] at h
    rw [← Option.some_inj.mp h]
    rfl

/-- Claim C10 witness: converting the Thai character ko kai at charset
position 0 of font f0 succeeds and records codepoint 65. -/
theorem c10_description_codepoint_witness :
    SfdDescription.codepoint ⟨65, 250, 1000, 0, "f0"⟩ = 65 :=
  c10_description_codepoint true 'ก' true 0 "f0" 250 1000
    ⟨65, 250, 1000, 0, "f0"⟩ (by rfl)

end ThaiDVF
